import Mathlib

/-!
# Covered-call strategist: shallow embedding and verification

A shallow embedding, in Lean 4, of the covered-call recommendation engine
(`src/tools/analysis_tools.py`, `src/tools/technical_tools.py`,
`src/tools/options_tools.py`, `src/tools/strategy_tools.py`,
`src/tools/formatting_tools.py`).

Modelling conventions:
* Python numbers become exact rationals `ℚ`; Python `int` share counts become `ℤ`.
* Python dict fields that may be missing or non-numeric become `Option` fields
  on a record; a `none` field models a missing key or a non-numeric value
  (both raise inside a `try`, producing the same error dict in the source).
* Python `try/except` fallible functions become `Except String _` or records
  carrying an `error : Option String` field, matching the dict shape of the
  source.
* Python `round(x, n)` is round-half-to-even on exact rationals (`roundTo`).
* Python `//` on `int` is `Int.fdiv`, `%` is `Int.emod`, `int(_)` on a
  non-negative value is the rational floor (`truncQ` truncates toward zero).
* The external yfinance-backed collaborators (ticker validator, price source,
  option-chain source, technical-history source) are parameters of the
  orchestrator (`Collaborators`), as in the spec's external-interface section.
* Human-readable message texts are carried as `String`s; long report bodies
  are abbreviated to their leading fragments, while every error-code and
  control-flow decision follows the source exactly.
-/

namespace CoveredCall

/-- Round-half-to-even on rationals to an integer, as Python's `round`
tie-breaking behaves on exact values. -/
def halfEven (x : ℚ) : ℤ :=
  let f : ℤ := ⌊x⌋
  let r : ℚ := x - f
  if r < 1/2 then f
  else if 1/2 < r then f + 1
  else if f % 2 = 0 then f else f + 1

/-- Python `round(x, n)`: round to `n` decimal places (half-to-even). -/
def roundTo (n : ℕ) (x : ℚ) : ℚ :=
  (halfEven (x * 10 ^ n) : ℚ) / 10 ^ n

/-- Python `int(x)` on a float/rational: truncation toward zero. -/
def truncQ (q : ℚ) : ℤ :=
  if 0 ≤ q then ⌊q⌋ else ⌈q⌉

/-- A raw option record, as produced by `get_options_chain`
(`src/tools/options_tools.py`).  Each field is `Option`-valued: `none`
models a missing dict key or a non-numeric value. -/
structure OptionRec where
  strike : Option ℚ
  expiration : Option String
  days_to_expiry : Option ℚ
  bid : Option ℚ
  ask : Option ℚ := none
  open_interest : Option ℚ := none
  volume : Option ℚ := none
  implied_volatility : Option ℚ := none
deriving Repr, DecidableEq

/-- The metrics dict returned by `calculate_option_metrics` on success
(`src/tools/analysis_tools.py`, lines 33-44). -/
structure OptionMetrics where
  strike : ℚ
  expiration : String
  premium : ℚ
  premium_yield : ℚ
  annualized_return : ℚ
  is_itm : Bool
  moneyness : ℚ
  days_to_expiry : ℚ
  open_interest : ℚ
  implied_volatility : ℚ
deriving Repr, DecidableEq

/-- `calculate_option_metrics(option, stock_price)` from
`src/tools/analysis_tools.py` (lines 4-49).  Key lookups for `strike`,
`bid` and `days_to_expiry` happen first (a missing or non-numeric value
raises, caught by the `except` into an error dict); the `moneyness`
division raises when `stock_price` is zero; the result-dict construction
finally looks up `expiration`. -/
def calculate_option_metrics (opt : OptionRec) (stock_price : ℚ) :
    Except String OptionMetrics :=
  match opt.strike with
  | none => .error "Error calculating metrics: 'strike'"
  | some strike =>
    match opt.bid with
    | none => .error "Error calculating metrics: 'bid'"
    | some premium =>
      match opt.days_to_expiry with
      | none => .error "Error calculating metrics: 'days_to_expiry'"
      | some days_to_expiry =>
        let premium_yield : ℚ := if strike > 0 then premium / strike * 100 else 0
        let annualized_return : ℚ :=
          if days_to_expiry > 0 then premium_yield / days_to_expiry * 365 else 0
        let is_itm : Bool := strike < stock_price
        if stock_price = 0 then
          .error "Error calculating metrics: float division by zero"
        else
          let moneyness : ℚ := (strike - stock_price) / stock_price * 100
          match opt.expiration with
          | none => .error "Error calculating metrics: 'expiration'"
          | some expiration =>
            .ok {
              strike := strike
              expiration := expiration
              premium := premium
              premium_yield := roundTo 4 premium_yield
              annualized_return := roundTo 2 annualized_return
              is_itm := is_itm
              moneyness := roundTo 2 moneyness
              days_to_expiry := days_to_expiry
              open_interest := opt.open_interest.getD 0
              implied_volatility := opt.implied_volatility.getD 0 }

/-- Result dict of `find_best_option` (`src/tools/analysis_tools.py`,
lines 52-100). -/
structure FindBestResult where
  found : Bool
  best_option : Option OptionMetrics
  error : Option String
deriving Repr, DecidableEq

/-- One iteration of the best-yield accumulation loop shared (textually)
by `find_best_option`, `_select_strike_based_on_technicals` and
`_create_layered_strategy`: skip candidates whose metrics error, keep the
candidate whose `annualized_return` strictly exceeds the best seen so far. -/
def find_best_step (stock_price : ℚ) (acc : Option OptionMetrics × ℚ)
    (opt : OptionRec) : Option OptionMetrics × ℚ :=
  match calculate_option_metrics opt stock_price with
  | .error _ => acc
  | .ok m => if m.annualized_return > acc.2 then (some m, m.annualized_return) else acc

/-- The best-yield loop: `best_option = None`, `best_annualized = -1`,
then one `find_best_step` per candidate. -/
def find_best_core (options : List OptionRec) (stock_price : ℚ) :
    Option OptionMetrics :=
  (options.foldl (find_best_step stock_price) (none, -1)).1

/-- `find_best_option(filtered_options, stock_price)` from
`src/tools/analysis_tools.py` (lines 52-100). -/
def find_best_option (filtered_options : List OptionRec) (stock_price : ℚ) :
    FindBestResult :=
  if filtered_options = [] then
    { found := false, best_option := none
      error := some "No options available after filtering." }
  else
    match find_best_core filtered_options stock_price with
    | none =>
      { found := false, best_option := none
        error := some "Could not calculate metrics for any options." }
    | some m =>
      { found := true, best_option := some m, error := none }

/-- Result dict of `calculate_breakeven` (`src/tools/analysis_tools.py`,
lines 103-128). -/
structure BreakevenResult where
  breakeven_price : Option ℚ
  downside_protection_percent : Option ℚ
  error : Option String
deriving Repr, DecidableEq

/-- `calculate_breakeven(stock_price, premium)` from
`src/tools/analysis_tools.py` (lines 103-128): the subtraction always
succeeds; the `downside_protection` division raises exactly when
`stock_price` is zero, which the `except` turns into the error dict. -/
def calculate_breakeven (stock_price premium : ℚ) : BreakevenResult :=
  if stock_price = 0 then
    { breakeven_price := none
      downside_protection_percent := none
      error := some "Error calculating breakeven: float division by zero" }
  else
    { breakeven_price := some (roundTo 2 (stock_price - premium))
      downside_protection_percent := some (roundTo 2 (premium / stock_price * 100))
      error := none }

/-- Success payload of `calculate_max_profit` (`src/tools/analysis_tools.py`,
lines 131-175). -/
structure MaxProfitResult where
  contracts : ℤ
  shares : ℤ
  capital_gain_per_share : ℚ
  total_capital_gain : ℚ
  premium_per_share : ℚ
  total_premium : ℚ
  total_max_profit : ℚ
  max_return_percent : ℚ
deriving Repr, DecidableEq

/-- `calculate_max_profit(stock_price, strike, premium, shares)` from
`src/tools/analysis_tools.py` (lines 131-175).  The only fallible step is
the `max_return_percent` division, raising when `stock_price * shares`
is zero. -/
def calculate_max_profit (stock_price strike premium : ℚ) (shares : ℤ) :
    Except String MaxProfitResult :=
  let contracts := Int.fdiv shares 100
  let capital_gain_per_share := strike - stock_price
  let total_capital_gain := capital_gain_per_share * shares
  let total_premium := premium * shares
  let total_max_profit := total_capital_gain + total_premium
  if stock_price * (shares : ℚ) = 0 then
    .error "Error calculating max profit: float division by zero"
  else
    .ok {
      contracts := contracts
      shares := shares
      capital_gain_per_share := roundTo 2 capital_gain_per_share
      total_capital_gain := roundTo 2 total_capital_gain
      premium_per_share := roundTo 2 premium
      total_premium := roundTo 2 total_premium
      total_max_profit := roundTo 2 total_max_profit
      max_return_percent := roundTo 2 (total_max_profit / (stock_price * shares) * 100) }

/-! ## Option-chain filtering (`src/tools/options_tools.py`) -/

/-- Result dict of `get_options_chain`, as consumed by `filter_options`
and the orchestrator.  The external fetch itself is a collaborator. -/
structure ChainResult where
  options : List OptionRec
  error : Option String
deriving Repr, DecidableEq

/-- The per-record test of the `filter_options` list comprehension
(`src/tools/options_tools.py`, lines 114-121), with Python's
short-circuit key accesses: `days_to_expiry` is read first (a missing
key raises); the `open_interest` key is only read when the day window
matched, and `bid` only when open interest qualified. -/
def window_liquidity_test (min_days max_days min_open_interest : ℚ)
    (opt : OptionRec) : Except String Bool :=
  match opt.days_to_expiry with
  | none => .error "Error filtering options: 'days_to_expiry'"
  | some d =>
    if min_days ≤ d ∧ d ≤ max_days then
      match opt.open_interest with
      | none => .error "Error filtering options: 'open_interest'"
      | some oi =>
        if oi ≥ min_open_interest then
          match opt.bid with
          | none => .error "Error filtering options: 'bid'"
          | some b => .ok (b > 0)
        else .ok false
    else .ok false

/-- The `filter_options` list comprehension over the whole chain: the
first raising record aborts the comprehension (error dict for the whole
call). -/
def filter_options_list (min_days max_days min_open_interest : ℚ) :
    List OptionRec → Except String (List OptionRec)
  | [] => .ok []
  | opt :: rest => do
    let keep ← window_liquidity_test min_days max_days min_open_interest opt
    let tail ← filter_options_list min_days max_days min_open_interest rest
    .ok (if keep then opt :: tail else tail)

/-- Result dict of `filter_options` (`src/tools/options_tools.py`,
lines 79-138). -/
structure FilteredResult where
  filtered_options : List OptionRec
  total_before_filter : ℕ
  total_after_filter : ℕ
  error : Option String
deriving Repr, DecidableEq

/-- `filter_options(options_data, min_days=7, max_days=45,
min_open_interest=10)` from `src/tools/options_tools.py`. -/
def filter_options (options_data : ChainResult) (min_days : ℚ := 7)
    (max_days : ℚ := 45) (min_open_interest : ℚ := 10) : FilteredResult :=
  match options_data.error with
  | some e =>
    { filtered_options := [], total_before_filter := 0
      total_after_filter := 0, error := some e }
  | none =>
    match filter_options_list min_days max_days min_open_interest
        options_data.options with
    | .error e =>
      { filtered_options := [], total_before_filter := 0
        total_after_filter := 0, error := some e }
    | .ok filtered =>
      { filtered_options := filtered
        total_before_filter := options_data.options.length
        total_after_filter := filtered.length
        error := none }

/-- The orchestrator's OTM-only filter (`src/tools/strategy_tools.py`,
lines 337-341): `opt.get("strike", 0) >= stock_price`. -/
def otm_filter (stock_price : ℚ) (options : List OptionRec) : List OptionRec :=
  options.filter fun opt => decide (opt.strike.getD 0 ≥ stock_price)

/-- The pure predicate the window+liquidity comprehension computes on a
record whose three inspected fields are all present. -/
def window_liquidity_pred (min_days max_days min_open_interest : ℚ)
    (opt : OptionRec) : Bool :=
  decide (min_days ≤ opt.days_to_expiry.getD 0 ∧ opt.days_to_expiry.getD 0 ≤ max_days)
    && decide (opt.open_interest.getD 0 ≥ min_open_interest)
    && decide (opt.bid.getD 0 > 0)

/-! ## Technical classification (`src/tools/technical_tools.py`) -/

/-- The signal-accumulation stage of `get_technical_analysis`
(`src/tools/technical_tools.py`, lines 171-214): given the RSI value and
the MACD / moving-average / volume signal labels, accumulate the bullish
and bearish scores and the bounce flag. -/
def score_signals (rsi : ℚ) (macd_trend ma_trend volume_signal : String) :
    ℚ × ℚ × Option String :=
  let acc : ℚ × ℚ × Option String :=
    if rsi > 70 then (0, 1/2, some "overbought_pullback")
    else if rsi < 35 then (1/2, 0, some "oversold_bounce")
    else if rsi > 65 then (0, 3/10, none)
    else if rsi > 55 then (1, 0, none)
    else if rsi < 45 then (0, 1, none)
    else (0, 0, none)
  let acc :=
    if macd_trend = "bullish" then (acc.1 + 1, acc.2.1, acc.2.2)
    else if macd_trend = "bearish" then (acc.1, acc.2.1 + 1, acc.2.2)
    else acc
  let acc :=
    if ma_trend = "strong_bullish" ∨ ma_trend = "bullish" then
      (acc.1 + 1, acc.2.1, acc.2.2)
    else if ma_trend = "strong_bearish" ∨ ma_trend = "bearish" then
      (acc.1, acc.2.1 + 1, acc.2.2)
    else acc
  if volume_signal = "bullish_volume" then (acc.1 + 1, acc.2.1, acc.2.2)
  else if volume_signal = "bearish_volume" then (acc.1, acc.2.1 + 1, acc.2.2)
  else acc

/-- The final aggregation of `get_technical_analysis`
(`src/tools/technical_tools.py`, lines 216-260): bullish ratio (defaulting
to `0.5` when no signal accumulated), then the bounce-adjusted
classification into `(assignment_risk, sentiment, recommendation)`. -/
def classify_signals (bullish_signals bearish_signals : ℚ)
    (bounce_potential : Option String) : String × String × String :=
  let total_signals := bullish_signals + bearish_signals
  let bullish_ratio : ℚ :=
    if total_signals > 0 then bullish_signals / total_signals else 1/2
  if bounce_potential = some "oversold_bounce" then
    if bullish_ratio < 2/5 then
      ("moderate", "oversold_bounce_risk",
        "Stock is oversold - potential bounce. Consider layered strikes or wait for confirmation.")
    else
      ("moderate", "oversold_with_bullish",
        "Oversold with bullish signals - high bounce probability. Use defensive strikes.")
  else if bounce_potential = some "overbought_pullback" then
    if bullish_ratio > 3/5 then
      ("moderate", "overbought_pullback_risk",
        "Stock is overbought - potential pullback. ATM strikes may be safe.")
    else
      ("low", "overbought_with_bearish",
        "Overbought with bearish signals - pullback likely. Good for covered calls.")
  else if bullish_ratio ≥ 7/10 then
    ("high", "bullish", "Consider higher strike or wait for pullback")
  else if bullish_ratio ≥ 1/2 then
    ("moderate", "slightly_bullish", "ATM or slightly OTM strike appropriate")
  else if bullish_ratio ≥ 3/10 then
    ("low", "neutral", "Good environment for covered calls")
  else
    ("very_low", "bearish", "Caution: stock may decline, reducing call premium value")

/-- The slice of the `get_technical_analysis` result dict the strategy
engine consumes (`assignment_risk`, `sentiment`, `bounce_potential`,
`error`).  The history fetch behind it is an external collaborator. -/
structure TechResult where
  error : Option String
  assignment_risk : String := "moderate"
  sentiment : String := "neutral"
  bounce_potential : Option String := none
deriving Repr, DecidableEq

/-! ## Strike selection and layering (`src/tools/strategy_tools.py`) -/

/-- The strike-preference lookup of `_select_strike_based_on_technicals`
(`src/tools/strategy_tools.py`, lines 39-74): OTM band, strategy label,
reason text, layering flag. -/
structure StrikePreference where
  min_otm_pct : ℚ
  max_otm_pct : ℚ
  strategy : String
  reason : String
  use_layered : Bool
deriving Repr, DecidableEq

/-- The sentiment/assignment-risk → OTM-band table of
`_select_strike_based_on_technicals` (`src/tools/strategy_tools.py`,
lines 40-74), with the source's branch priority. -/
def strike_preference (assignment_risk sentiment : String) : StrikePreference :=
  if sentiment = "oversold_bounce_risk" ∨ sentiment = "oversold_with_bullish" then
    { min_otm_pct := 0.02, max_otm_pct := 0.06, strategy := "balanced"
      reason := "Stock is oversold (RSI < 30) with potential bounce. Using balanced strike to hedge bounce risk."
      use_layered := true }
  else if sentiment = "overbought_pullback_risk" ∨ sentiment = "overbought_with_bearish" then
    { min_otm_pct := 0.0, max_otm_pct := 0.03, strategy := "aggressive"
      reason := "Stock is overbought with pullback potential. ATM strike is appropriate."
      use_layered := false }
  else if assignment_risk = "high" then
    { min_otm_pct := 0.03, max_otm_pct := 0.10, strategy := "defensive"
      reason := "Due to bullish momentum, recommending a higher strike to reduce assignment risk while still collecting premium."
      use_layered := false }
  else if assignment_risk = "moderate" then
    { min_otm_pct := 0.01, max_otm_pct := 0.05, strategy := "balanced"
      reason := "With mixed technical signals, recommending a slightly OTM strike for balanced risk/reward."
      use_layered := true }
  else
    { min_otm_pct := 0.0, max_otm_pct := 0.03, strategy := "aggressive"
      reason := "With low assignment risk, recommending an ATM strike to maximize premium income."
      use_layered := false }

/-- Python `f"{p*100:.0f}"` on the (integral) band percentages. -/
def pct0f (p : ℚ) : String := toString (halfEven (p * 100))

/-- The replacement reason emitted when the preferred OTM band holds no
candidate (`src/tools/strategy_tools.py`, line 88). -/
def expanded_reason (min_otm_pct max_otm_pct : ℚ) : String :=
  "No options in preferred range (" ++ pct0f min_otm_pct ++ "-"
    ++ pct0f max_otm_pct ++ "% OTM). Selecting best available option."

/-- The OTM band filter shared (textually) by
`_select_strike_based_on_technicals` (lines 76-83) and the layering loop
(lines 168-175): keep candidates whose strike lies in
`[stock_price*(1+lo), stock_price*(1+hi)]` (a missing strike reads as 0). -/
def band_filter (stock_price lo hi : ℚ) (options : List OptionRec) :
    List OptionRec :=
  options.filter fun opt =>
    decide (stock_price * (1 + lo) ≤ opt.strike.getD 0 ∧
      opt.strike.getD 0 ≤ stock_price * (1 + hi))

/-- The `StrikeSelection` dict returned by
`_select_strike_based_on_technicals` (`src/tools/strategy_tools.py`,
lines 102-110). -/
structure StrikeSelection where
  option : Option OptionMetrics
  strategy : String
  reason : String
  assignment_risk : String
  sentiment : String
  bounce_potential : Option String
  use_layered : Bool
deriving Repr, DecidableEq

/-- `_select_strike_based_on_technicals(filtered_options, stock_price,
technical_analysis)` from `src/tools/strategy_tools.py` (lines 18-110). -/
def select_strike_based_on_technicals (filtered_options : List OptionRec)
    (stock_price : ℚ) (technical_analysis : TechResult) : StrikeSelection :=
  let p := strike_preference technical_analysis.assignment_risk
    technical_analysis.sentiment
  let preferred_options :=
    band_filter stock_price p.min_otm_pct p.max_otm_pct filtered_options
  let step : List OptionRec × String :=
    if preferred_options = [] then
      (filtered_options, expanded_reason p.min_otm_pct p.max_otm_pct)
    else (preferred_options, p.reason)
  { option := find_best_core step.1 stock_price
    strategy := p.strategy
    reason := step.2
    assignment_risk := technical_analysis.assignment_risk
    sentiment := technical_analysis.sentiment
    bounce_potential := technical_analysis.bounce_potential
    use_layered := p.use_layered }

/-- One allocation row of the layered-strategy tables
(`src/tools/strategy_tools.py`, lines 139-161). -/
structure Allocation where
  name : String
  pct : ℚ
  otm_lo : ℚ
  otm_hi : ℚ
deriving Repr, DecidableEq

/-- Oversold table: 40/40/20 across OTM bands 4-8% / 2-4% / 0-2%. -/
def oversold_allocations : List Allocation :=
  [⟨"Conservative", 0.40, 0.04, 0.08⟩,
   ⟨"Balanced", 0.40, 0.02, 0.04⟩,
   ⟨"Aggressive", 0.20, 0.00, 0.02⟩]

/-- Moderate/bounce table: 33/34/33 across OTM bands 3-6% / 1-3% / 0-1%. -/
def moderate_allocations : List Allocation :=
  [⟨"Conservative", 0.33, 0.03, 0.06⟩,
   ⟨"Balanced", 0.34, 0.01, 0.03⟩,
   ⟨"Aggressive", 0.33, 0.00, 0.01⟩]

/-- Default table: 30/40/30 across OTM bands 3-6% / 1-3% / 0-1%. -/
def default_allocations : List Allocation :=
  [⟨"Conservative", 0.30, 0.03, 0.06⟩,
   ⟨"Balanced", 0.40, 0.01, 0.03⟩,
   ⟨"Aggressive", 0.30, 0.00, 0.01⟩]

/-- `max(1, int(contracts * alloc["pct"]))` from
`src/tools/strategy_tools.py`, line 167. -/
def layer_contracts (contracts : ℤ) (pct : ℚ) : ℤ :=
  max 1 (truncQ ((contracts : ℚ) * pct))

/-- One layer of a layered strategy (`src/tools/strategy_tools.py`,
lines 195-200). -/
structure Layer where
  name : String
  contracts : ℤ
  option : OptionMetrics
  premium : ℚ
deriving Repr, DecidableEq

/-- The layered-strategy result dict (`src/tools/strategy_tools.py`,
lines 205-209). -/
structure LayeredStrategy where
  layers : List Layer
  total_contracts : ℤ
  total_premium : ℚ
deriving Repr, DecidableEq

/-- The per-allocation body of the layering loop
(`src/tools/strategy_tools.py`, lines 166-200): band-filter (falling back
to the whole candidate set when empty), best-by-yield, and a layer record
when a viable option exists. -/
def build_layer (filtered_options : List OptionRec) (stock_price : ℚ)
    (contracts : ℤ) (alloc : Allocation) : Option Layer :=
  let layer_contracts := layer_contracts contracts alloc.pct
  let range_options := band_filter stock_price alloc.otm_lo alloc.otm_hi filtered_options
  let range_options := if range_options = [] then filtered_options else range_options
  match find_best_core range_options stock_price with
  | none => none
  | some best =>
    some { name := alloc.name, contracts := layer_contracts, option := best
           premium := best.premium * layer_contracts * 100 }

/-- `_create_layered_strategy(filtered_options, stock_price, shares,
technical_analysis)` from `src/tools/strategy_tools.py` (lines 113-209). -/
def create_layered_strategy (filtered_options : List OptionRec)
    (stock_price : ℚ) (shares : ℤ) (technical_analysis : TechResult) :
    Option LayeredStrategy :=
  let contracts := Int.fdiv shares 100
  if contracts < 3 then none
  else
    let sentiment := technical_analysis.sentiment
    let allocations :=
      if sentiment = "oversold_bounce_risk" ∨ sentiment = "oversold_with_bullish" then
        oversold_allocations
      else if sentiment = "moderate" ∨ technical_analysis.bounce_potential ≠ none then
        moderate_allocations
      else default_allocations
    let layers := allocations.filterMap
      (build_layer filtered_options stock_price contracts)
    if layers = [] then none
    else
      some { layers := layers
             total_contracts := (layers.map Layer.contracts).sum
             total_premium := (layers.map Layer.premium).sum }

/-! ## Formatting and error plumbing (`src/tools/formatting_tools.py`) -/

/-- Result dict of `format_error_message`
(`src/tools/formatting_tools.py`, lines 118-145): the `error_type` is
echoed unchanged; the message is chosen from a fixed table with an
"unexpected error" default. -/
structure ErrorMessage where
  error_type : String
  message : String
deriving Repr, DecidableEq

/-- `format_error_message(error_type, details)` from
`src/tools/formatting_tools.py` (lines 118-145). -/
def format_error_message (error_type details : String) : ErrorMessage :=
  let message :=
    if error_type = "invalid_ticker" then
      "I couldn't find the stock ticker you provided. " ++ details
        ++ " Please check the symbol and try again."
    else if error_type = "no_options" then
      "No options are available for this stock. " ++ details
    else if error_type = "no_liquid_options" then
      "No liquid options found in the 7-45 day window. " ++ details
        ++ " Try a more actively traded stock."
    else if error_type = "invalid_shares" then
      "Invalid share count. " ++ details
        ++ " Shares must be a positive multiple of 100 for covered calls."
    else if error_type = "api_error" then
      "There was an error fetching market data. " ++ details
        ++ " Please try again in a moment."
    else if error_type = "calculation_error" then
      "There was an error calculating the recommendation. " ++ details
    else "An unexpected error occurred. " ++ details
  { error_type := error_type, message := message }

/-- The `{formatted_text, error}` dict `run_covered_call_strategy`
returns (`src/tools/strategy_tools.py`, lines 226-240). -/
structure RunResult where
  formatted_text : String
  error : Option String
deriving Repr, DecidableEq

/-- The error-return pattern of `run_covered_call_strategy`: format an
error and surface its (echoed) type. -/
def error_result (error_type details : String) : RunResult :=
  let e := format_error_message error_type details
  { formatted_text := e.message, error := some e.error_type }

/-- `format_itm_warning(strike, stock_price)` from
`src/tools/formatting_tools.py` (lines 75-115): no warning when the
strike is at or above the stock price; the percent division raises when
the stock price is zero (caught into a no-warning dict); the warning body
is abbreviated to its headline. -/
def format_itm_warning (strike stock_price : ℚ) : Option String × Bool :=
  if strike ≥ stock_price then (none, false)
  else if stock_price = 0 then (none, false)
  else (some "**ITM Warning:** This option is in-the-money.", true)

/-- `format_recommendation(...)` from `src/tools/formatting_tools.py`
(lines 4-72), abbreviated to the headline: with a metrics record and the
computed breakeven/max-profit payloads every field access succeeds, so
the source's `except` branch is unreachable. -/
def format_recommendation (ticker : String) (best_option : OptionMetrics)
    (shares : ℤ) : String :=
  "**Recommendation: Sell " ++ toString (Int.fdiv shares 100) ++ " "
    ++ ticker ++ " Calls expiring " ++ best_option.expiration ++ "**"

/-! ## The orchestrator (`src/tools/strategy_tools.py`, lines 212-466) -/

/-- Result dict of the external `validate_ticker` collaborator
(`src/tools/stock_tools.py`). -/
structure ValidationResult where
  valid : Bool
  has_options : Bool
  error : Option String
deriving Repr, DecidableEq

/-- Result dict of the external `get_stock_price` collaborator
(`src/tools/stock_tools.py`). -/
structure PriceResult where
  price : Option ℚ
  error : Option String
deriving Repr, DecidableEq

/-- The external data collaborators consumed by the orchestrator, per the
spec's external-interface section. -/
structure Collaborators where
  validate_ticker : String → ValidationResult
  get_stock_price : String → PriceResult
  get_options_chain : String → ChainResult
  get_technical_analysis : String → TechResult

/-- Python truthiness of an optional string (`None` and `""` are falsy). -/
def pyTruthy (s : Option String) : Bool :=
  match s with
  | none => false
  | some s => s ≠ ""

/-- Python `a or b` on an optional string and a fallback. -/
def pyOr (s : Option String) (fallback : String) : String :=
  match s with
  | none => fallback
  | some s => if s = "" then fallback else s

/-- `is_sane_option` from `src/tools/strategy_tools.py` (lines 323-330):
drop bids above the stock price, and far-OTM strikes (>150% of price)
whose bid exceeds 20% of the price. -/
def is_sane_option (stock_price : ℚ) (opt : OptionRec) : Bool :=
  let bid := opt.bid.getD 0
  let strike := opt.strike.getD 0
  if bid > stock_price then false
  else if strike > stock_price * 1.5 ∧ bid > stock_price * 0.2 then false
  else true

/-- The strike-selection / layering phase of `run_covered_call_strategy`
(`src/tools/strategy_tools.py`, lines 353-398): on technical-analysis
failure degrade to plain `find_best_option` with the `standard`
non-layered selection; otherwise select by technicals and attach a
layered strategy exactly when the selection asked for one and
`shares >= 300`. -/
def select_phase (filtered_options : List OptionRec) (stock_price : ℚ)
    (shares : ℤ) (technical : TechResult) :
    Except RunResult (OptionMetrics × StrikeSelection × Option LayeredStrategy) :=
  if pyTruthy technical.error then
    let best := find_best_option filtered_options stock_price
    if best.found = false ∨ best.best_option = none then
      .error (error_result "calculation_error"
        (pyOr best.error "No suitable options found."))
    else
      match best.best_option with
      | none => .error (error_result "calculation_error"
          "No suitable options found.")
      | some best_option =>
        .ok (best_option,
          { option := some best_option, strategy := "standard"
            reason := "Technical analysis unavailable. Selecting highest yield option."
            assignment_risk := "unknown", sentiment := "unknown"
            bounce_potential := none, use_layered := false },
          none)
  else
    let strike_selection :=
      select_strike_based_on_technicals filtered_options stock_price technical
    match strike_selection.option with
    | none => .error (error_result "calculation_error"
        "No suitable options found for current market conditions.")
    | some best_option =>
      let layered :=
        if strike_selection.use_layered = true ∧ shares ≥ 300 then
          create_layered_strategy filtered_options stock_price shares technical
        else none
      .ok (best_option, strike_selection, layered)

/-- The success-path message assembly of `run_covered_call_strategy`
(`src/tools/strategy_tools.py`, lines 426-461): base recommendation, then
the conditional ITM warning, layered section and technical section. -/
def success_message (clean_ticker : String) (stock_price : ℚ)
    (best_option : OptionMetrics) (shares : ℤ)
    (strike_selection : StrikeSelection)
    (layered_strategy : Option LayeredStrategy) (technical : TechResult) :
    String :=
  let message := format_recommendation clean_ticker best_option shares
  let itm := format_itm_warning best_option.strike stock_price
  let message :=
    match itm with
    | (some warning, true) => message ++ "\n\n" ++ warning
    | _ => message
  let message :=
    match layered_strategy with
    | some l =>
      if l.layers ≠ [] then
        message ++ "\n\n**Alternative: Layered Strategy**"
      else message
    | none => message
  if pyTruthy technical.error = false then
    message ++ "\n\n**Technical Analysis & Strike Selection**\n\n**Why this strike?** "
      ++ strike_selection.reason
  else message

/-- The selection/outcome stage of `run_covered_call_strategy`
(`src/tools/strategy_tools.py`, lines 343-466): the moneyness-exhaustion
check, technical fetch, strike selection/layering, breakeven, max profit
and final message. -/
def run_selection_stage (c : Collaborators) (clean_ticker : String)
    (shares : ℤ) (stock_price : ℚ) (filtered_options : List OptionRec) :
    RunResult :=
  if filtered_options = [] then
    error_result "no_liquid_options"
      "No options met the 7-45 day, liquidity, and moneyness criteria."
  else
    let technical := c.get_technical_analysis clean_ticker
    match select_phase filtered_options stock_price shares technical with
    | .error r => r
    | .ok (best_option, strike_selection, layered_strategy) =>
      let breakeven := calculate_breakeven stock_price best_option.premium
      if pyTruthy breakeven.error then
        error_result "calculation_error" (breakeven.error.getD "")
      else
        match calculate_max_profit stock_price best_option.strike
            best_option.premium shares with
        | .error e => error_result "calculation_error" e
        | .ok _ =>
          { formatted_text := success_message clean_ticker
              stock_price best_option shares strike_selection
              layered_strategy technical
            error := none }

/-- The chain-fetching/filtering stage of `run_covered_call_strategy`
(`src/tools/strategy_tools.py`, lines 275-341): chain fetch,
window+liquidity filter, sanity filter, OTM filter. -/
def run_options_stage (c : Collaborators) (clean_ticker : String)
    (shares : ℤ) (otm_only : Bool) (stock_price : ℚ) : RunResult :=
  let options_data := c.get_options_chain clean_ticker
  if pyTruthy options_data.error then
    error_result "api_error" (options_data.error.getD "")
  else if options_data.options = [] then
    error_result "no_options"
      ("No call options returned for '" ++ clean_ticker ++ "'.")
  else
    let filtered := filter_options options_data
    if pyTruthy filtered.error then
      error_result "calculation_error" (filtered.error.getD "")
    else if filtered.filtered_options = [] then
      error_result "no_liquid_options"
        "No options met the 7-45 day and liquidity criteria."
    else
      let filtered_options :=
        filtered.filtered_options.filter (is_sane_option stock_price)
      let filtered_options :=
        if otm_only then otm_filter stock_price filtered_options
        else filtered_options
      run_selection_stage c clean_ticker shares stock_price filtered_options

/-- `run_covered_call_strategy(ticker, shares, otm_only=True)` from
`src/tools/strategy_tools.py` (lines 212-466), over explicit
collaborators.  Success-message bodies are abbreviated; every validation,
filtering, selection and error-code decision follows the source. -/
def run_covered_call_strategy (c : Collaborators) (ticker : String)
    (shares : ℤ) (otm_only : Bool := true) : RunResult :=
  let clean_ticker := ticker.trim.toUpper
  if shares ≤ 0 ∨ Int.emod shares 100 ≠ 0 then
    error_result "invalid_shares"
      ("You provided " ++ toString shares ++ " shares.")
  else
    let validation := c.validate_ticker clean_ticker
    if validation.valid = false then
      error_result "invalid_ticker"
        (pyOr validation.error ("Ticker '" ++ clean_ticker ++ "' not found."))
    else if validation.has_options = false then
      error_result "no_options"
        (pyOr validation.error ("Ticker '" ++ clean_ticker ++ "' has no options."))
    else
      let price_data := c.get_stock_price clean_ticker
      match price_data.price with
      | none =>
        error_result "api_error"
          (pyOr price_data.error
            ("Could not fetch price for '" ++ clean_ticker ++ "'."))
      | some stock_price =>
        if pyTruthy price_data.error then
          error_result "api_error"
            (pyOr price_data.error
              ("Could not fetch price for '" ++ clean_ticker ++ "'."))
        else
          run_options_stage c clean_ticker shares otm_only stock_price

/-! ## Proof-support definitions -/

/-- The metrics-level view of one best-yield loop iteration (the
candidate's metrics already computed successfully). -/
def best_metric_step (acc : Option OptionMetrics × ℚ) (m : OptionMetrics) :
    Option OptionMetrics × ℚ :=
  if m.annualized_return > acc.2 then (some m, m.annualized_return) else acc

/-- The error-free metrics of a candidate list, in input order. -/
def ok_metrics (stock_price : ℚ) (options : List OptionRec) : List OptionMetrics :=
  options.filterMap fun o => (calculate_option_metrics o stock_price).toOption

/-- A concrete two-candidate chain for exercising `find_best_option`. -/
def demo_chain : List OptionRec :=
  [{ strike := some 105, expiration := some "2025-01-17"
     days_to_expiry := some 30, bid := some 2, open_interest := some 40 },
   { strike := some 110, expiration := some "2025-01-17"
     days_to_expiry := some 30, bid := some 1, open_interest := some 25 }]

/-- The same two candidates in the opposite order. -/
def demo_chain_rev : List OptionRec :=
  [{ strike := some 110, expiration := some "2025-01-17"
     days_to_expiry := some 30, bid := some 1, open_interest := some 25 },
   { strike := some 105, expiration := some "2025-01-17"
     days_to_expiry := some 30, bid := some 2, open_interest := some 40 }]

/-- A healthy collaborator bundle serving the concrete chain. -/
def demo_collaborators : Collaborators :=
  { validate_ticker := fun _ => ⟨true, true, none⟩
    get_stock_price := fun _ => ⟨some 100, none⟩
    get_options_chain := fun _ => ⟨demo_chain, none⟩
    get_technical_analysis := fun _ => ⟨none, "moderate", "neutral", none⟩ }

/-- A collaborator bundle in which every external call fails. -/
def offline_collaborators : Collaborators :=
  { validate_ticker := fun _ => ⟨false, false, some "down"⟩
    get_stock_price := fun _ => ⟨none, some "down"⟩
    get_options_chain := fun _ => ⟨[], some "down"⟩
    get_technical_analysis := fun _ => ⟨some "down", "unknown", "unknown", none⟩ }

/-! ## Basic lemmas about rounding -/

theorem halfEven_zero : halfEven 0 = 0 := by
  simp [halfEven]

theorem roundTo_zero (n : ℕ) : roundTo n 0 = 0 := by
  simp [roundTo, halfEven_zero]

theorem halfEven_nonneg {x : ℚ} (hx : 0 ≤ x) : 0 ≤ halfEven x := by
  have hf : (0 : ℤ) ≤ ⌊x⌋ := Int.le_floor.mpr (by exact_mod_cast hx)
  unfold halfEven
  dsimp only
  split
  · exact hf
  · split
    · omega
    · split
      · exact hf
      · omega

theorem roundTo_nonneg (n : ℕ) {x : ℚ} (hx : 0 ≤ x) : 0 ≤ roundTo n x := by
  have h1 : (0 : ℚ) ≤ (halfEven (x * 10 ^ n) : ℚ) := by
    exact_mod_cast halfEven_nonneg (by positivity)
  unfold roundTo
  positivity

theorem halfEven_intCast (z : ℤ) : halfEven (z : ℚ) = z := by
  unfold halfEven
  simp

theorem roundTo_of_mul_eq_intCast (n : ℕ) (z : ℤ) (x : ℚ)
    (h : x * 10 ^ n = (z : ℚ)) : roundTo n x = (z : ℚ) / 10 ^ n := by
  rw [roundTo, h, halfEven_intCast]

/-! ## C4: option-metrics formulas -/

/-- C4 (amended): for every option record whose `strike` (positive),
`bid`, `days_to_expiry` and `expiration` fields are present and numeric,
and every NONZERO stock price, `calculate_option_metrics` succeeds with
`premium_yield = bid/strike*100` rounded to 4 places,
`annualized_return = (bid/strike*100)/days_to_expiry*365` rounded to 2
places when `days_to_expiry > 0` and `0` when `days_to_expiry = 0`,
`is_itm = (strike < stock_price)`, and
`moneyness = (strike - stock_price)/stock_price*100` rounded to 2 places.
(The claim's "every stock price" fails at stock price 0, where the
moneyness division raises; see the counterexample.) -/
theorem calculate_option_metrics_formulas (o : OptionRec) (sp k b d : ℚ)
    (e : String) (hk : o.strike = some k) (hb : o.bid = some b)
    (hd : o.days_to_expiry = some d) (he : o.expiration = some e)
    (hkpos : 0 < k) (hsp : sp ≠ 0) :
    ∃ m : OptionMetrics, calculate_option_metrics o sp = .ok m ∧
      m.premium_yield = roundTo 4 (b / k * 100) ∧
      (0 < d → m.annualized_return = roundTo 2 (b / k * 100 / d * 365)) ∧
      (d = 0 → m.annualized_return = 0) ∧
      m.is_itm = decide (k < sp) ∧
      m.moneyness = roundTo 2 ((k - sp) / sp * 100) := by
  unfold calculate_option_metrics
  rw [hk, hb, hd, he]
  simp only [if_neg hsp, if_pos hkpos, gt_iff_lt]
  refine ⟨_, rfl, rfl, fun hd0 => ?_, fun hd0 => ?_, rfl, rfl⟩
  · simp only [if_pos hd0]
  · simp only [hd0, lt_irrefl, if_neg, if_false, roundTo_zero]

/-- C4 counterexample: at stock price `0` the metrics computation of a
fully populated option record (strike 100 > 0, bid 1, 30 days to expiry)
fails with an error instead of returning the claimed metric fields, so
the claim's "and every stock price" is false as stated. -/
theorem calculate_option_metrics_at_zero_price :
    (calculate_option_metrics
      { strike := some 100, expiration := some "2025-01-17"
        days_to_expiry := some 30, bid := some 1 } 0).toOption = none := by
  decide

/-- C4 witness: the amended theorem applied to a concrete option
(strike 100, bid 1, 30 days) at stock price 95. -/
theorem calculate_option_metrics_formulas_witness :
    ∃ m : OptionMetrics,
      calculate_option_metrics
        { strike := some 100, expiration := some "2025-01-17"
          days_to_expiry := some 30, bid := some 1 } 95 = .ok m ∧
      m.premium_yield = roundTo 4 (1 / 100 * 100) ∧
      (0 < (30 : ℚ) → m.annualized_return = roundTo 2 (1 / 100 * 100 / 30 * 365)) ∧
      ((30 : ℚ) = 0 → m.annualized_return = 0) ∧
      m.is_itm = decide ((100 : ℚ) < 95) ∧
      m.moneyness = roundTo 2 ((100 - 95) / 95 * 100) :=
  calculate_option_metrics_formulas
    { strike := some 100, expiration := some "2025-01-17"
      days_to_expiry := some 30, bid := some 1 }
    95 100 1 30 "2025-01-17" rfl rfl rfl rfl (by norm_num) (by norm_num)

/-! ## C6: breakeven and downside protection -/

/-- C6 (amended): `calculate_breakeven` returns
`breakeven_price = stock_price - premium` and
`downside_protection_percent = premium/stock_price*100` (each rounded to
2 places) for every nonzero stock price, and fails (error with null
results) exactly when the stock price is 0.  (The claim's "fails if
stockPrice <= 0" is false for negative prices; see the counterexample.) -/
theorem calculate_breakeven_spec (sp premium : ℚ) :
    (sp ≠ 0 → calculate_breakeven sp premium =
      { breakeven_price := some (roundTo 2 (sp - premium))
        downside_protection_percent := some (roundTo 2 (premium / sp * 100))
        error := none })
    ∧ (sp = 0 → calculate_breakeven sp premium =
      { breakeven_price := none
        downside_protection_percent := none
        error := some "Error calculating breakeven: float division by zero" }) := by
  constructor <;> intro h <;> simp [calculate_breakeven, h]

/-- C6 counterexample: at stock price `-5 ≤ 0` the function succeeds
(breakeven `-8`, downside protection `-60`, no error), refuting the
claim's "fails if stockPrice <= 0". -/
theorem calculate_breakeven_negative_price_succeeds :
    calculate_breakeven (-5) 3 =
      { breakeven_price := some (-8)
        downside_protection_percent := some (-60)
        error := none } := by
  have e1 : roundTo 2 ((-5 : ℚ) - 3) = -8 := by
    rw [roundTo_of_mul_eq_intCast 2 (-800) _ (by norm_num)]
    norm_num
  have e2 : roundTo 2 ((3 : ℚ) / (-5) * 100) = -60 := by
    rw [roundTo_of_mul_eq_intCast 2 (-6000) _ (by norm_num)]
    norm_num
  simp [calculate_breakeven, e1, e2]

/-- C6 witness: the amended theorem applied at stock price 100 and
premium 3 (breakeven 97, downside protection 3%), with the nonzero-price
hypothesis discharged. -/
theorem calculate_breakeven_spec_witness :
    (100 : ℚ) ≠ 0 ∧
    calculate_breakeven 100 3 =
      { breakeven_price := some (roundTo 2 (100 - 3))
        downside_protection_percent := some (roundTo 2 (3 / 100 * 100))
        error := none } :=
  ⟨by norm_num, (calculate_breakeven_spec 100 3).1 (by norm_num)⟩

/-! ## C7: when the metrics computation fails -/

/-- C7 (amended): `calculate_option_metrics` is a pure function that
fails exactly when a required field (`strike`, `bid`, `days_to_expiry`,
`expiration`) is missing or non-numeric (modelled by a `none` field), OR
the stock price is 0 (the moneyness division).  (The claim's "for every
stock price it succeeds" is false at stock price 0; see the
counterexample.) -/
theorem calculate_option_metrics_failure_iff (o : OptionRec) (sp : ℚ) :
    (calculate_option_metrics o sp).toOption = none ↔
      (o.strike = none ∨ o.bid = none ∨ o.days_to_expiry = none ∨
        o.expiration = none ∨ sp = 0) := by
  unfold calculate_option_metrics
  cases h1 : o.strike <;> cases h2 : o.bid <;> cases h3 : o.days_to_expiry <;>
    cases h4 : o.expiration <;> by_cases h5 : sp = 0 <;>
      simp [h1, h2, h3, h4, h5, Except.toOption]

/-- C7 counterexample: a record with all required fields present and
numeric (strike 50, bid 2, 14 days, dated expiration) still fails at
stock price 0, refuting "for every stock price, it succeeds". -/
theorem calculate_option_metrics_fails_at_zero :
    (calculate_option_metrics
      { strike := some 50, expiration := some "2025-02-21"
        days_to_expiry := some 14, bid := some 2 } 0).toOption = none := by
  decide

/-! ## C2: sentiment/risk classification by bullish ratio -/

/-- C2: with no bounce flag set, `classify_signals` is determined by the
bullish ratio `bullish/(bullish+bearish)` (defaulting to `0.5` when both
accumulators are zero): ratio ≥ 0.7 gives high/bullish, ≥ 0.5 gives
moderate/slightly_bullish, ≥ 0.3 gives low/neutral, otherwise
very_low/bearish; in particular a ratio of exactly 0.75 yields
assignment_risk `high` and sentiment `bullish`. -/
theorem classify_signals_no_bounce (b s : ℚ) :
    (classify_signals b s none =
      (let r : ℚ := if b + s > 0 then b / (b + s) else 1/2
       if r ≥ 7/10 then
         ("high", "bullish", "Consider higher strike or wait for pullback")
       else if r ≥ 1/2 then
         ("moderate", "slightly_bullish", "ATM or slightly OTM strike appropriate")
       else if r ≥ 3/10 then
         ("low", "neutral", "Good environment for covered calls")
       else
         ("very_low", "bearish",
           "Caution: stock may decline, reducing call premium value")))
    ∧ (b = 0 ∧ s = 0 → classify_signals b s none =
        ("moderate", "slightly_bullish", "ATM or slightly OTM strike appropriate"))
    ∧ (0 < b + s → b / (b + s) = 3/4 → classify_signals b s none =
        ("high", "bullish", "Consider higher strike or wait for pullback")) := by
  refine ⟨?_, ?_, ?_⟩
  · simp [classify_signals]
  · rintro ⟨hb, hs⟩
    simp [classify_signals, hb, hs]
    norm_num
  · intro hpos hr
    simp [classify_signals, if_pos hpos, hr]
    norm_num

/-- C2 witness: the theorem applied at accumulators `bullish = 3`,
`bearish = 1` (ratio `0.75`, no bounce flag): high/bullish. -/
theorem classify_signals_no_bounce_witness :
    classify_signals 3 1 none =
      ("high", "bullish", "Consider higher strike or wait for pullback") :=
  (classify_signals_no_bounce 3 1).2.2 (by norm_num) (by norm_num)

/-! ## C8: filter composition -/

theorem window_liquidity_test_of_present (min_days max_days min_oi : ℚ)
    (o : OptionRec) (hd : o.days_to_expiry.isSome) (hoi : o.open_interest.isSome)
    (hb : o.bid.isSome) :
    window_liquidity_test min_days max_days min_oi o =
      .ok (window_liquidity_pred min_days max_days min_oi o) := by
  obtain ⟨d, hd⟩ := Option.isSome_iff_exists.mp hd
  obtain ⟨oi, hoi⟩ := Option.isSome_iff_exists.mp hoi
  obtain ⟨b, hb⟩ := Option.isSome_iff_exists.mp hb
  simp only [window_liquidity_test, window_liquidity_pred, hd, hoi, hb,
    Option.getD_some]
  split_ifs <;> simp_all

theorem filter_options_list_of_present (min_days max_days min_oi : ℚ)
    (l : List OptionRec)
    (h : ∀ o ∈ l, o.days_to_expiry.isSome ∧ o.open_interest.isSome ∧ o.bid.isSome) :
    filter_options_list min_days max_days min_oi l =
      .ok (l.filter (window_liquidity_pred min_days max_days min_oi)) := by
  induction l with
  | nil => rfl
  | cons o rest ih =>
    obtain ⟨⟨hd, hoi, hb⟩, hrest⟩ :
        (o.days_to_expiry.isSome ∧ o.open_interest.isSome ∧ o.bid.isSome) ∧
          ∀ o' ∈ rest, o'.days_to_expiry.isSome ∧ o'.open_interest.isSome ∧
            o'.bid.isSome := by
      refine ⟨h o (List.mem_cons_self o rest), fun o' ho' => h o' (List.mem_cons_of_mem o ho')⟩
    rw [filter_options_list,
      window_liquidity_test_of_present min_days max_days min_oi o hd hoi hb]
    rw [ih hrest]
    simp only [Bind.bind, Except.bind, List.filter_cons]

/-- C8: the window+liquidity filter (7-45 days, open interest ≥ 10,
bid > 0) and the OTM filter (strike ≥ stock price) commute — filtering in
either order yields the same surviving list — and each filter is
idempotent.  The hypothesis says every record carries the three fields the
window+liquidity comprehension inspects (always true of
`get_options_chain` output); without it the comprehension raises. -/
theorem filters_commute_and_idempotent (l : List OptionRec) (sp : ℚ)
    (h : ∀ o ∈ l, o.days_to_expiry.isSome ∧ o.open_interest.isSome ∧ o.bid.isSome) :
    ∃ l₁, filter_options_list 7 45 10 l = .ok l₁ ∧
      filter_options_list 7 45 10 (otm_filter sp l) = .ok (otm_filter sp l₁) ∧
      filter_options_list 7 45 10 l₁ = .ok l₁ ∧
      otm_filter sp (otm_filter sp l) = otm_filter sp l := by
  set p := window_liquidity_pred 7 45 10 with hp
  set q : OptionRec → Bool := fun o => decide (o.strike.getD 0 ≥ sp) with hq
  have hsub : ∀ (m : List OptionRec) (r : OptionRec → Bool),
      (∀ o ∈ m, o.days_to_expiry.isSome ∧ o.open_interest.isSome ∧ o.bid.isSome) →
      ∀ o ∈ m.filter r, o.days_to_expiry.isSome ∧ o.open_interest.isSome ∧
        o.bid.isSome := fun m r hm o ho => hm o (List.mem_filter.mp ho).1
  refine ⟨l.filter p, filter_options_list_of_present 7 45 10 l h, ?_, ?_, ?_⟩
  · rw [show otm_filter sp l = l.filter q from rfl,
      filter_options_list_of_present 7 45 10 (l.filter q) (hsub l q h)]
    rw [show otm_filter sp (l.filter p) = (l.filter p).filter q from rfl]
    rw [List.filter_filter, List.filter_filter]
    exact congrArg Except.ok (List.filter_congr fun a _ => Bool.and_comm _ _)
  · rw [filter_options_list_of_present 7 45 10 (l.filter p) (hsub l p h)]
    rw [List.filter_filter]
    exact congrArg Except.ok (List.filter_congr fun a _ => Bool.and_self _)
  · rw [show otm_filter sp l = l.filter q from rfl,
      show otm_filter sp (l.filter q) = (l.filter q).filter q from rfl,
      List.filter_filter]
    exact List.filter_congr fun a _ => Bool.and_self _

/-- C8 witness: the theorem applied at stock price 100 to a concrete
two-record chain (one liquid OTM option, one illiquid ITM option). -/
theorem filters_commute_and_idempotent_witness :
    (∀ o ∈ [
      ({ strike := some 105, expiration := some "2025-01-17",
         days_to_expiry := some 30, bid := some 2, open_interest := some 40 } : OptionRec),
      ({ strike := some 95, expiration := some "2025-01-17",
         days_to_expiry := some 3, bid := some 0, open_interest := some 2 } : OptionRec)],
      o.days_to_expiry.isSome ∧ o.open_interest.isSome ∧ o.bid.isSome) ∧
    ∃ l₁, filter_options_list 7 45 10 [
      ({ strike := some 105, expiration := some "2025-01-17",
         days_to_expiry := some 30, bid := some 2, open_interest := some 40 } : OptionRec),
      ({ strike := some 95, expiration := some "2025-01-17",
         days_to_expiry := some 3, bid := some 0, open_interest := some 2 } : OptionRec)] = .ok l₁ ∧
      filter_options_list 7 45 10 (otm_filter 100 [
        ({ strike := some 105, expiration := some "2025-01-17",
           days_to_expiry := some 30, bid := some 2, open_interest := some 40 } : OptionRec),
        ({ strike := some 95, expiration := some "2025-01-17",
           days_to_expiry := some 3, bid := some 0, open_interest := some 2 } : OptionRec)]) =
        .ok (otm_filter 100 l₁) ∧
      filter_options_list 7 45 10 l₁ = .ok l₁ ∧
      otm_filter 100 (otm_filter 100 [
        ({ strike := some 105, expiration := some "2025-01-17",
           days_to_expiry := some 30, bid := some 2, open_interest := some 40 } : OptionRec),
        ({ strike := some 95, expiration := some "2025-01-17",
           days_to_expiry := some 3, bid := some 0, open_interest := some 2 } : OptionRec)]) =
        otm_filter 100 [
        ({ strike := some 105, expiration := some "2025-01-17",
           days_to_expiry := some 30, bid := some 2, open_interest := some 40 } : OptionRec),
        ({ strike := some 95, expiration := some "2025-01-17",
           days_to_expiry := some 3, bid := some 0, open_interest := some 2 } : OptionRec)] :=
  ⟨by decide, filters_commute_and_idempotent _ 100 (by decide)⟩

/-! ## C3: best-by-yield selection -/

theorem except_toOption_eq_some {ε α : Type} {e : Except ε α} {a : α} :
    e.toOption = some a ↔ e = .ok a := by
  cases e <;> simp [Except.toOption]

theorem mem_ok_metrics {sp : ℚ} {l : List OptionRec} {m : OptionMetrics} :
    m ∈ ok_metrics sp l ↔ ∃ o ∈ l, calculate_option_metrics o sp = .ok m := by
  simp [ok_metrics, List.mem_filterMap, except_toOption_eq_some]

/-- The best-yield loop, viewed over the error-free metrics list. -/
theorem foldl_find_best_eq (sp : ℚ) (l : List OptionRec)
    (acc : Option OptionMetrics × ℚ) :
    l.foldl (find_best_step sp) acc = (ok_metrics sp l).foldl best_metric_step acc := by
  induction l generalizing acc with
  | nil => rfl
  | cons o rest ih =>
    rw [List.foldl_cons]
    cases hm : calculate_option_metrics o sp with
    | error e =>
      have hstep : find_best_step sp acc o = acc := by
        rw [find_best_step, hm]
      rw [hstep, ih]
      simp [ok_metrics, List.filterMap_cons, hm, Except.toOption]
    | ok m =>
      have hstep : find_best_step sp acc o = best_metric_step acc m := by
        rw [find_best_step, hm]
        rfl
      rw [hstep, ih]
      simp [ok_metrics, List.filterMap_cons, hm, Except.toOption]

/-- Full characterization of the metrics-level loop: it either keeps the
initial accumulator (when nothing beats it) or returns the first
occurrence of the running maximum. -/
theorem best_metric_foldl_spec (ms : List OptionMetrics)
    (b₀ : Option OptionMetrics) (y₀ : ℚ) :
    (ms.foldl best_metric_step (b₀, y₀) = (b₀, y₀) ∧
      ∀ m ∈ ms, m.annualized_return ≤ y₀) ∨
    (∃ m pre post, ms = pre ++ m :: post ∧
      ms.foldl best_metric_step (b₀, y₀) = (some m, m.annualized_return) ∧
      y₀ < m.annualized_return ∧
      (∀ m' ∈ pre, m'.annualized_return < m.annualized_return) ∧
      (∀ m' ∈ post, m'.annualized_return ≤ m.annualized_return)) := by
  induction ms generalizing b₀ y₀ with
  | nil =>
    left
    exact ⟨rfl, by simp⟩
  | cons m₀ rest ih =>
    rw [List.foldl_cons]
    by_cases h0 : m₀.annualized_return > y₀
    · have hstep : best_metric_step (b₀, y₀) m₀ = (some m₀, m₀.annualized_return) := by
        rw [best_metric_step, if_pos h0]
      rw [hstep]
      rcases ih (some m₀) m₀.annualized_return with ⟨heq, hall⟩ |
        ⟨m, pre, post, hsplit, heq, hlt, hpre, hpost⟩
      · right
        exact ⟨m₀, [], rest, by simp, heq, h0, by simp, hall⟩
      · right
        refine ⟨m, m₀ :: pre, post, by simp [hsplit], heq, lt_trans h0 hlt, ?_, hpost⟩
        intro m' hm'
        rcases List.mem_cons.mp hm' with rfl | hm'
        · exact hlt
        · exact hpre m' hm'
    · have hstep : best_metric_step (b₀, y₀) m₀ = (b₀, y₀) := by
        rw [best_metric_step, if_neg h0]
      rw [hstep]
      push_neg at h0
      rcases ih b₀ y₀ with ⟨heq, hall⟩ |
        ⟨m, pre, post, hsplit, heq, hlt, hpre, hpost⟩
      · left
        refine ⟨heq, ?_⟩
        intro m' hm'
        rcases List.mem_cons.mp hm' with rfl | hm'
        · exact h0
        · exact hall m' hm'
      · right
        refine ⟨m, m₀ :: pre, post, by simp [hsplit], heq, hlt, ?_, hpost⟩
        intro m' hm'
        rcases List.mem_cons.mp hm' with rfl | hm'
        · exact lt_of_le_of_lt h0 hlt
        · exact hpre m' hm'

/-- With non-negative bids (the data model's invariant), every error-free
metric has a non-negative annualized return. -/
theorem ann_nonneg_of_ok {o : OptionRec} {sp : ℚ} {m : OptionMetrics}
    (hm : calculate_option_metrics o sp = .ok m)
    (hb : ∀ b, o.bid = some b → 0 ≤ b) : 0 ≤ m.annualized_return := by
  cases h1 : o.strike with
  | none => simp [calculate_option_metrics, h1] at hm
  | some k =>
  cases h2 : o.bid with
  | none => simp [calculate_option_metrics, h1, h2] at hm
  | some b =>
  cases h3 : o.days_to_expiry with
  | none => simp [calculate_option_metrics, h1, h2, h3] at hm
  | some d =>
  by_cases h5 : sp = 0
  · simp [calculate_option_metrics, h1, h2, h3, h5] at hm
  · cases h4 : o.expiration with
    | none => simp [calculate_option_metrics, h1, h2, h3, h4, h5] at hm
    | some e =>
      have hb' : 0 ≤ b := hb b h2
      have hval : 0 ≤ (if d > 0 then (if k > 0 then b / k * 100 else 0) / d * 365 else 0 : ℚ) := by
        split_ifs with hd hk
        · positivity
        · simp
        · exact le_refl 0
      rw [calculate_option_metrics] at hm
      simp only [h1, h2, h3, h4, if_neg h5] at hm
      injection hm with hm
      subst hm
      exact roundTo_nonneg 2 hval

theorem ok_metrics_ann_nonneg {sp : ℚ} {l : List OptionRec}
    (hb : ∀ o ∈ l, ∀ b, o.bid = some b → 0 ≤ b) :
    ∀ m ∈ ok_metrics sp l, 0 ≤ m.annualized_return := by
  intro m hm
  obtain ⟨o, ho, hok⟩ := mem_ok_metrics.mp hm
  exact ann_nonneg_of_ok hok (hb o ho)

theorem find_best_core_eq (l : List OptionRec) (sp : ℚ) :
    find_best_core l sp = ((ok_metrics sp l).foldl best_metric_step (none, -1)).1 := by
  rw [find_best_core, foldl_find_best_eq]

theorem find_best_core_none_iff {l : List OptionRec} {sp : ℚ}
    (hb : ∀ o ∈ l, ∀ b, o.bid = some b → 0 ≤ b) :
    find_best_core l sp = none ↔ ok_metrics sp l = [] := by
  rw [find_best_core_eq]
  constructor
  · intro h
    rcases best_metric_foldl_spec (ok_metrics sp l) none (-1) with ⟨_, hall⟩ |
      ⟨m, pre, post, _, heq, _, _, _⟩
    · by_contra hne
      obtain ⟨m, hm⟩ := List.exists_mem_of_ne_nil _ hne
      have h1 := hall m hm
      have h2 := ok_metrics_ann_nonneg hb m hm
      linarith
    · rw [heq] at h
      cases h
  · intro h
    rw [h]
    rfl

theorem find_best_core_decomp {l : List OptionRec} {sp : ℚ} {m : OptionMetrics}
    (h : find_best_core l sp = some m) :
    ∃ pre post, ok_metrics sp l = pre ++ m :: post ∧
      (∀ m' ∈ pre, m'.annualized_return < m.annualized_return) ∧
      (∀ m' ∈ post, m'.annualized_return ≤ m.annualized_return) := by
  rw [find_best_core_eq] at h
  rcases best_metric_foldl_spec (ok_metrics sp l) none (-1) with ⟨heq, _⟩ |
    ⟨m', pre, post, hsplit, heq, _, hpre, hpost⟩
  · rw [heq] at h
    cases h
  · rw [heq] at h
    injection h with h
    subst h
    exact ⟨pre, post, hsplit, hpre, hpost⟩

theorem find_best_core_mem_max {l : List OptionRec} {sp : ℚ} {m : OptionMetrics}
    (h : find_best_core l sp = some m) :
    m ∈ ok_metrics sp l ∧
      ∀ m' ∈ ok_metrics sp l, m'.annualized_return ≤ m.annualized_return := by
  obtain ⟨pre, post, hsplit, hpre, hpost⟩ := find_best_core_decomp h
  rw [hsplit]
  constructor
  · exact List.mem_append_right pre (List.mem_cons_self m post)
  · intro m' hm'
    rcases List.mem_append.mp hm' with hm' | hm'
    · exact le_of_lt (hpre m' hm')
    · rcases List.mem_cons.mp hm' with rfl | hm'
      · exact le_refl _
      · exact hpost m' hm'

/-- C3: `find_best_option` returns `found = false` (with a descriptive
error) exactly when the input list is empty or every candidate's metrics
computation errors; otherwise it returns the first candidate attaining
the strictly greatest annualized return (everything before it in the
error-free metrics list is strictly smaller, everything after it no
larger); and it is order-stable: a permutation of the input with no two
error-free candidates of equal annualized return selects the same option.
Bids are assumed non-negative per the data model (`bid`: non-negative
decimal). -/
theorem find_best_option_spec (sp : ℚ) (l l' : List OptionRec)
    (hb : ∀ o ∈ l, ∀ b, o.bid = some b → 0 ≤ b) :
    ((find_best_option l sp).found = false ↔
      (l = [] ∨ ∀ o ∈ l, (calculate_option_metrics o sp).toOption = none)) ∧
    ((find_best_option l sp).found = false → (find_best_option l sp).error.isSome) ∧
    (∀ m, (find_best_option l sp).best_option = some m →
      (find_best_option l sp).found = true ∧
      ∃ pre post, ok_metrics sp l = pre ++ m :: post ∧
        (∀ m' ∈ pre, m'.annualized_return < m.annualized_return) ∧
        (∀ m' ∈ post, m'.annualized_return ≤ m.annualized_return)) ∧
    (l.Perm l' →
      (ok_metrics sp l).Pairwise
        (fun a b => a.annualized_return ≠ b.annualized_return) →
      (find_best_option l sp).best_option = (find_best_option l' sp).best_option) := by
  refine ⟨?_, ?_, ?_, ?_⟩
  · by_cases hl : l = []
    · subst hl
      simp [find_best_option]
    · simp only [find_best_option, if_neg hl]
      cases hc : find_best_core l sp with
      | none =>
        constructor
        · intro _
          exact Or.inr (List.filterMap_eq_nil_iff.mp
            ((find_best_core_none_iff hb).mp hc))
        · intro _
          rfl
      | some m =>
        constructor
        · intro h
          exact absurd h (by simp)
        · intro h
          rcases h with rfl | hall
          · exact absurd rfl hl
          · obtain ⟨o, ho, hok⟩ :=
              mem_ok_metrics.mp (find_best_core_mem_max hc).1
            have : (calculate_option_metrics o sp).toOption = some m := by
              rw [hok]
              rfl
            rw [hall o ho] at this
            cases this
  · by_cases hl : l = []
    · subst hl
      intro _
      rfl
    · simp only [find_best_option, if_neg hl]
      cases hc : find_best_core l sp with
      | none =>
        intro _
        rfl
      | some m =>
        intro h
        exact absurd h (by simp)
  · intro m hm
    by_cases hl : l = []
    · subst hl
      simp [find_best_option] at hm
    · simp only [find_best_option, if_neg hl] at hm ⊢
      cases hc : find_best_core l sp with
      | none =>
        rw [hc] at hm
        simp at hm
      | some m' =>
        rw [hc] at hm
        simp only at hm
        injection hm with hm
        subst hm
        exact ⟨rfl, find_best_core_decomp hc⟩
  · intro hperm hpair
    have hb' : ∀ o ∈ l', ∀ b, o.bid = some b → 0 ≤ b :=
      fun o ho => hb o (hperm.mem_iff.mpr ho)
    have hok : (ok_metrics sp l).Perm (ok_metrics sp l') := hperm.filterMap _
    by_cases hl : l = []
    · have hl' : l' = [] := by
        subst hl
        exact hperm.symm.eq_nil
      rw [hl, hl']
    · have hl' : l' ≠ [] := fun h => hl ((h ▸ hperm).eq_nil)
      simp only [find_best_option, if_neg hl, if_neg hl']
      cases hc : find_best_core l sp with
      | none =>
        have h1 : ok_metrics sp l = [] := (find_best_core_none_iff hb).mp hc
        have h2 : ok_metrics sp l' = [] := by
          rw [h1] at hok
          exact hok.symm.eq_nil
        have hc' : find_best_core l' sp = none :=
          (find_best_core_none_iff hb').mpr h2
        rw [hc']
      | some m =>
        obtain ⟨hmem, hmax⟩ := find_best_core_mem_max hc
        cases hc' : find_best_core l' sp with
        | none =>
          have h2 := (find_best_core_none_iff hb').mp hc'
          have := hok.mem_iff.mp hmem
          rw [h2] at this
          cases this
        | some m'' =>
          obtain ⟨hmem'', hmax''⟩ := find_best_core_mem_max hc'
          have hm_in' : m ∈ ok_metrics sp l' := hok.mem_iff.mp hmem
          have hm''_in : m'' ∈ ok_metrics sp l := hok.mem_iff.mpr hmem''
          have heq : m.annualized_return = m''.annualized_return :=
            le_antisymm (hmax'' m hm_in') (hmax m'' hm''_in)
          by_cases hmm : m = m''
          · rw [hmm]
          · exact absurd heq
              (List.Pairwise.forall (fun _ _ h => Ne.symm h) hpair hmem hm''_in hmm)

/-- C3 witness: the theorem applied at stock price 100 to the concrete
two-candidate chain and its reversal (both bids non-negative). -/
theorem find_best_option_spec_witness :
    ((find_best_option demo_chain 100).found = false ↔
      (demo_chain = [] ∨ ∀ o ∈ demo_chain,
        (calculate_option_metrics o 100).toOption = none)) ∧
    ((find_best_option demo_chain 100).found = false →
      (find_best_option demo_chain 100).error.isSome) ∧
    (∀ m, (find_best_option demo_chain 100).best_option = some m →
      (find_best_option demo_chain 100).found = true ∧
      ∃ pre post, ok_metrics 100 demo_chain = pre ++ m :: post ∧
        (∀ m' ∈ pre, m'.annualized_return < m.annualized_return) ∧
        (∀ m' ∈ post, m'.annualized_return ≤ m.annualized_return)) ∧
    (demo_chain.Perm demo_chain_rev →
      (ok_metrics 100 demo_chain).Pairwise
        (fun a b => a.annualized_return ≠ b.annualized_return) →
      (find_best_option demo_chain 100).best_option =
        (find_best_option demo_chain_rev 100).best_option) :=
  find_best_option_spec 100 demo_chain demo_chain_rev (by
    intro o ho b hbid
    fin_cases ho <;> simp_all <;> rw [← hbid] <;> norm_num)

/-! ## C1: technicals-driven strike selection -/

theorem pct0f_eval (p : ℚ) (z : ℤ) (h : p * 100 = (z : ℚ)) :
    pct0f p = toString z := by
  rw [pct0f, h, halfEven_intCast]

theorem expanded_reason_2_6 : expanded_reason 0.02 0.06 =
    "No options in preferred range (2-6% OTM). Selecting best available option." := by
  rw [expanded_reason, pct0f_eval 0.02 2 (by norm_num),
    pct0f_eval 0.06 6 (by norm_num)]
  decide

theorem expanded_reason_0_3 : expanded_reason 0.0 0.03 =
    "No options in preferred range (0-3% OTM). Selecting best available option." := by
  rw [expanded_reason, pct0f_eval 0.0 0 (by norm_num),
    pct0f_eval 0.03 3 (by norm_num)]
  decide

theorem expanded_reason_3_10 : expanded_reason 0.03 0.10 =
    "No options in preferred range (3-10% OTM). Selecting best available option." := by
  rw [expanded_reason, pct0f_eval 0.03 3 (by norm_num),
    pct0f_eval 0.10 10 (by norm_num)]
  decide

theorem expanded_reason_1_5 : expanded_reason 0.01 0.05 =
    "No options in preferred range (1-5% OTM). Selecting best available option." := by
  rw [expanded_reason, pct0f_eval 0.01 1 (by norm_num),
    pct0f_eval 0.05 5 (by norm_num)]
  decide

/-- In every branch of the preference table, the branch reason differs
from the expanded-range replacement text. -/
theorem strike_preference_reason_ne (risk sentiment : String) :
    (strike_preference risk sentiment).reason ≠
      expanded_reason (strike_preference risk sentiment).min_otm_pct
        (strike_preference risk sentiment).max_otm_pct := by
  unfold strike_preference
  split_ifs <;> dsimp only
  · rw [expanded_reason_2_6]; decide
  · rw [expanded_reason_0_3]; decide
  · rw [expanded_reason_3_10]; decide
  · rw [expanded_reason_1_5]; decide
  · rw [expanded_reason_0_3]; decide

theorem find_best_option_best_option (x : List OptionRec) (sp : ℚ)
    (hx : x ≠ []) :
    (find_best_option x sp).best_option = find_best_core x sp := by
  simp only [find_best_option, if_neg hx]
  cases find_best_core x sp <;> rfl

/-- Unfolding of `_select_strike_based_on_technicals` through the
band-filter fallback. -/
theorem select_strike_eq (filtered : List OptionRec) (sp : ℚ)
    (tech : TechResult) :
    select_strike_based_on_technicals filtered sp tech =
      { option := find_best_core
          (if band_filter sp
              (strike_preference tech.assignment_risk tech.sentiment).min_otm_pct
              (strike_preference tech.assignment_risk tech.sentiment).max_otm_pct
              filtered = []
           then filtered
           else band_filter sp
              (strike_preference tech.assignment_risk tech.sentiment).min_otm_pct
              (strike_preference tech.assignment_risk tech.sentiment).max_otm_pct
              filtered) sp
        strategy := (strike_preference tech.assignment_risk tech.sentiment).strategy
        reason :=
          if band_filter sp
              (strike_preference tech.assignment_risk tech.sentiment).min_otm_pct
              (strike_preference tech.assignment_risk tech.sentiment).max_otm_pct
              filtered = []
          then expanded_reason
            (strike_preference tech.assignment_risk tech.sentiment).min_otm_pct
            (strike_preference tech.assignment_risk tech.sentiment).max_otm_pct
          else (strike_preference tech.assignment_risk tech.sentiment).reason
        assignment_risk := tech.assignment_risk
        sentiment := tech.sentiment
        bounce_potential := tech.bounce_potential
        use_layered := (strike_preference tech.assignment_risk tech.sentiment).use_layered } := by
  by_cases h : band_filter sp
      (strike_preference tech.assignment_risk tech.sentiment).min_otm_pct
      (strike_preference tech.assignment_risk tech.sentiment).max_otm_pct
      filtered = [] <;>
    simp [select_strike_based_on_technicals, h]

/-- C1: `_select_strike_based_on_technicals` maps the snapshot's
sentiment/assignment risk to the fixed OTM-band table (rows 1-5, in
source priority order), keeps only candidates whose strike lies in
`[price*(1+min%), price*(1+max%)]`, falls back to the full candidate set
with the replaced "expanded range" reason exactly when the band-filtered
set is empty, selects within the resulting set exactly what
`find_best_option` selects, echoes the snapshot fields, and sets
`use_layered` exactly for the oversold-sentiment and moderate-risk
branches. -/
theorem select_strike_based_on_technicals_spec (filtered : List OptionRec)
    (sp : ℚ) (tech : TechResult) (hne : filtered ≠ []) :
    ((tech.sentiment = "oversold_bounce_risk" ∨
        tech.sentiment = "oversold_with_bullish") →
      strike_preference tech.assignment_risk tech.sentiment =
        { min_otm_pct := 0.02, max_otm_pct := 0.06, strategy := "balanced"
          reason := "Stock is oversold (RSI < 30) with potential bounce. Using balanced strike to hedge bounce risk."
          use_layered := true }) ∧
    (¬(tech.sentiment = "oversold_bounce_risk" ∨
        tech.sentiment = "oversold_with_bullish") →
      (tech.sentiment = "overbought_pullback_risk" ∨
        tech.sentiment = "overbought_with_bearish") →
      strike_preference tech.assignment_risk tech.sentiment =
        { min_otm_pct := 0.0, max_otm_pct := 0.03, strategy := "aggressive"
          reason := "Stock is overbought with pullback potential. ATM strike is appropriate."
          use_layered := false }) ∧
    (¬(tech.sentiment = "oversold_bounce_risk" ∨
        tech.sentiment = "oversold_with_bullish") →
      ¬(tech.sentiment = "overbought_pullback_risk" ∨
        tech.sentiment = "overbought_with_bearish") →
      tech.assignment_risk = "high" →
      strike_preference tech.assignment_risk tech.sentiment =
        { min_otm_pct := 0.03, max_otm_pct := 0.10, strategy := "defensive"
          reason := "Due to bullish momentum, recommending a higher strike to reduce assignment risk while still collecting premium."
          use_layered := false }) ∧
    (¬(tech.sentiment = "oversold_bounce_risk" ∨
        tech.sentiment = "oversold_with_bullish") →
      ¬(tech.sentiment = "overbought_pullback_risk" ∨
        tech.sentiment = "overbought_with_bearish") →
      tech.assignment_risk ≠ "high" →
      tech.assignment_risk = "moderate" →
      strike_preference tech.assignment_risk tech.sentiment =
        { min_otm_pct := 0.01, max_otm_pct := 0.05, strategy := "balanced"
          reason := "With mixed technical signals, recommending a slightly OTM strike for balanced risk/reward."
          use_layered := true }) ∧
    (¬(tech.sentiment = "oversold_bounce_risk" ∨
        tech.sentiment = "oversold_with_bullish") →
      ¬(tech.sentiment = "overbought_pullback_risk" ∨
        tech.sentiment = "overbought_with_bearish") →
      tech.assignment_risk ≠ "high" →
      tech.assignment_risk ≠ "moderate" →
      strike_preference tech.assignment_risk tech.sentiment =
        { min_otm_pct := 0.0, max_otm_pct := 0.03, strategy := "aggressive"
          reason := "With low assignment risk, recommending an ATM strike to maximize premium income."
          use_layered := false }) ∧
    (band_filter sp
        (strike_preference tech.assignment_risk tech.sentiment).min_otm_pct
        (strike_preference tech.assignment_risk tech.sentiment).max_otm_pct
        filtered ≠ [] →
      (select_strike_based_on_technicals filtered sp tech).option =
        (find_best_option (band_filter sp
          (strike_preference tech.assignment_risk tech.sentiment).min_otm_pct
          (strike_preference tech.assignment_risk tech.sentiment).max_otm_pct
          filtered) sp).best_option ∧
      (select_strike_based_on_technicals filtered sp tech).reason =
        (strike_preference tech.assignment_risk tech.sentiment).reason) ∧
    (band_filter sp
        (strike_preference tech.assignment_risk tech.sentiment).min_otm_pct
        (strike_preference tech.assignment_risk tech.sentiment).max_otm_pct
        filtered = [] →
      (select_strike_based_on_technicals filtered sp tech).option =
        (find_best_option filtered sp).best_option ∧
      (select_strike_based_on_technicals filtered sp tech).reason =
        expanded_reason
          (strike_preference tech.assignment_risk tech.sentiment).min_otm_pct
          (strike_preference tech.assignment_risk tech.sentiment).max_otm_pct) ∧
    (band_filter sp
        (strike_preference tech.assignment_risk tech.sentiment).min_otm_pct
        (strike_preference tech.assignment_risk tech.sentiment).max_otm_pct
        filtered = [] ↔
      (select_strike_based_on_technicals filtered sp tech).reason =
        expanded_reason
          (strike_preference tech.assignment_risk tech.sentiment).min_otm_pct
          (strike_preference tech.assignment_risk tech.sentiment).max_otm_pct) ∧
    (select_strike_based_on_technicals filtered sp tech).strategy =
      (strike_preference tech.assignment_risk tech.sentiment).strategy ∧
    (select_strike_based_on_technicals filtered sp tech).assignment_risk =
      tech.assignment_risk ∧
    (select_strike_based_on_technicals filtered sp tech).sentiment =
      tech.sentiment ∧
    (select_strike_based_on_technicals filtered sp tech).bounce_potential =
      tech.bounce_potential ∧
    ((select_strike_based_on_technicals filtered sp tech).use_layered = true ↔
      ((tech.sentiment = "oversold_bounce_risk" ∨
          tech.sentiment = "oversold_with_bullish") ∨
        (¬(tech.sentiment = "oversold_bounce_risk" ∨
            tech.sentiment = "oversold_with_bullish") ∧
          ¬(tech.sentiment = "overbought_pullback_risk" ∨
            tech.sentiment = "overbought_with_bearish") ∧
          tech.assignment_risk = "moderate"))) := by
  refine ⟨?_, ?_, ?_, ?_, ?_, ?_, ?_, ?_, ?_, ?_, ?_, ?_, ?_⟩
  · rintro (h | h) <;> simp [strike_preference, h]
  · intro h1 h2
    rw [strike_preference, if_neg h1]
    rcases h2 with h | h <;> simp [h]
  · intro h1 h2 h3
    rw [strike_preference, if_neg h1, if_neg h2, if_pos h3]
  · intro h1 h2 h3 h4
    rw [strike_preference, if_neg h1, if_neg h2, if_neg h3, if_pos h4]
  · intro h1 h2 h3 h4
    rw [strike_preference, if_neg h1, if_neg h2, if_neg h3, if_neg h4]
  · intro hf
    rw [select_strike_eq]
    refine ⟨?_, ?_⟩
    · simp only [if_neg hf]
      rw [find_best_option_best_option _ sp hf]
    · simp only [if_neg hf]
  · intro hf
    rw [select_strike_eq]
    refine ⟨?_, ?_⟩
    · simp only [if_pos hf]
      rw [find_best_option_best_option _ sp hne]
    · simp only [if_pos hf]
  · constructor
    · intro hf
      rw [select_strike_eq]
      simp only [if_pos hf]
    · intro h
      by_contra hf
      rw [select_strike_eq] at h
      simp only [if_neg hf] at h
      exact strike_preference_reason_ne tech.assignment_risk tech.sentiment h
  · rw [select_strike_eq]
  · rw [select_strike_eq]
  · rw [select_strike_eq]
  · rw [select_strike_eq]
  · rw [select_strike_eq]
    show (strike_preference tech.assignment_risk tech.sentiment).use_layered = true ↔ _
    rw [strike_preference]
    split_ifs with h1 h2 h3 h4
    · simp [h1]
    · simp [h1, h2]
    · simp only [h1, h2, h3]
      simp
    · simp [h1, h2, h3, h4]
    · simp [h1, h2, h3, h4]

/-- C1 witness: the theorem applied at stock price 100, the concrete
two-candidate chain, and a moderate-risk/neutral snapshot; the first
table row holds (vacuously here) with the hypotheses discharged. -/
theorem select_strike_based_on_technicals_spec_witness :
    demo_chain ≠ [] ∧
    ((("neutral" : String) = "oversold_bounce_risk" ∨
        ("neutral" : String) = "oversold_with_bullish") →
      strike_preference "moderate" "neutral" =
        { min_otm_pct := 0.02, max_otm_pct := 0.06, strategy := "balanced"
          reason := "Stock is oversold (RSI < 30) with potential bounce. Using balanced strike to hedge bounce risk."
          use_layered := true }) :=
  ⟨by decide,
    (select_strike_based_on_technicals_spec demo_chain 100
      { error := none, assignment_risk := "moderate", sentiment := "neutral"
        bounce_potential := none } (by decide)).1⟩

/-! ## C5: layering activation gates -/

/-- C5: `_create_layered_strategy` returns no layered strategy whenever
the position holds fewer than 3 contracts (`shares // 100 < 3`); the
orchestrator's selection phase attaches a layered strategy only when the
strike selection set `use_layered` and `shares >= 300`; and in particular
`shares = 200` (2 contracts) yields no layered result. -/
theorem layered_strategy_gates (filtered_options : List OptionRec) (sp : ℚ)
    (shares : ℤ) (tech : TechResult) :
    (Int.fdiv shares 100 < 3 →
      create_layered_strategy filtered_options sp shares tech = none) ∧
    (∀ r, select_phase filtered_options sp shares tech = .ok r →
      r.2.2 ≠ none → r.2.1.use_layered = true ∧ 300 ≤ shares) ∧
    create_layered_strategy filtered_options sp 200 tech = none := by
  refine ⟨?_, ?_, ?_⟩
  · intro h
    simp [create_layered_strategy, h]
  · intro r hr hne
    by_cases he : pyTruthy tech.error
    · simp only [select_phase, if_pos he] at hr
      split at hr
      · cases hr
      · split at hr
        · cases hr
        · injection hr with hr
          subst hr
          exact absurd rfl hne
    · simp only [select_phase, if_neg he] at hr
      split at hr
      · cases hr
      · injection hr with hr
        subst hr
        by_cases hcond :
            (select_strike_based_on_technicals filtered_options sp tech).use_layered =
              true ∧ shares ≥ 300
        · exact hcond
        · rw [if_neg hcond] at hne
          exact absurd rfl hne
  · simp [create_layered_strategy, show Int.fdiv 200 100 < 3 by decide]

/-- C5 witness: the theorem applied to the concrete chain at stock price
100 with `shares = 200` and a moderate/neutral snapshot; the 2-contract
hypothesis is discharged by computation. -/
theorem layered_strategy_gates_witness :
    Int.fdiv 200 100 < 3 ∧
    create_layered_strategy demo_chain 100 200
      { error := none, assignment_risk := "moderate", sentiment := "neutral"
        bounce_potential := none } = none :=
  ⟨by decide,
    (layered_strategy_gates demo_chain 100 200
      { error := none, assignment_risk := "moderate", sentiment := "neutral"
        bounce_potential := none }).1 (by decide)⟩

/-! ## C10: layered allocation never over-allocates -/

theorem layer_contracts_eq (n : ℤ) (p : ℚ) (hn : 0 ≤ n) (hp : 0 ≤ p) :
    layer_contracts n p = max 1 ⌊(n : ℚ) * p⌋ := by
  rw [layer_contracts, truncQ,
    if_pos (mul_nonneg (by exact_mod_cast hn) hp)]

theorem one_le_layer_contracts (n : ℤ) (p : ℚ) : 1 ≤ layer_contracts n p :=
  le_max_left 1 _

theorem oversold_sum_le (n : ℤ) (hn : 3 ≤ n) :
    (oversold_allocations.map (fun a => layer_contracts n a.pct)).sum ≤ n := by
  have hn0 : (0 : ℤ) ≤ n := by omega
  simp only [oversold_allocations, List.map_cons, List.map_nil, List.sum_cons,
    List.sum_nil, add_zero]
  rw [layer_contracts_eq n 0.40 hn0 (by norm_num),
    layer_contracts_eq n 0.20 hn0 (by norm_num)]
  by_cases h5 : 5 ≤ n
  · have hc : (5 : ℚ) ≤ (n : ℚ) := by exact_mod_cast h5
    have h1 : (2 : ℤ) ≤ ⌊(n : ℚ) * 0.40⌋ := Int.le_floor.mpr (by push_cast; linarith)
    have h2 : (1 : ℤ) ≤ ⌊(n : ℚ) * 0.20⌋ := Int.le_floor.mpr (by push_cast; linarith)
    rw [max_eq_right (by omega), max_eq_right h2]
    have f1 := Int.floor_le ((n : ℚ) * 0.40)
    have f2 := Int.floor_le ((n : ℚ) * 0.20)
    have hq : ((⌊(n : ℚ) * 0.40⌋ + (⌊(n : ℚ) * 0.40⌋ + ⌊(n : ℚ) * 0.20⌋) : ℤ) : ℚ) ≤
        (n : ℚ) := by
      push_cast
      linarith
    exact_mod_cast hq
  · interval_cases n <;> norm_num

theorem moderate_sum_le (n : ℤ) (hn : 3 ≤ n) :
    (moderate_allocations.map (fun a => layer_contracts n a.pct)).sum ≤ n := by
  have hn0 : (0 : ℤ) ≤ n := by omega
  simp only [moderate_allocations, List.map_cons, List.map_nil, List.sum_cons,
    List.sum_nil, add_zero]
  rw [layer_contracts_eq n 0.33 hn0 (by norm_num),
    layer_contracts_eq n 0.34 hn0 (by norm_num)]
  by_cases h4 : 4 ≤ n
  · have hc : (4 : ℚ) ≤ (n : ℚ) := by exact_mod_cast h4
    have h1 : (1 : ℤ) ≤ ⌊(n : ℚ) * 0.33⌋ := Int.le_floor.mpr (by push_cast; linarith)
    have h2 : (1 : ℤ) ≤ ⌊(n : ℚ) * 0.34⌋ := Int.le_floor.mpr (by push_cast; linarith)
    rw [max_eq_right h1, max_eq_right h2]
    have f1 := Int.floor_le ((n : ℚ) * 0.33)
    have f2 := Int.floor_le ((n : ℚ) * 0.34)
    have hq : ((⌊(n : ℚ) * 0.33⌋ + (⌊(n : ℚ) * 0.34⌋ + ⌊(n : ℚ) * 0.33⌋) : ℤ) : ℚ) ≤
        (n : ℚ) := by
      push_cast
      linarith
    exact_mod_cast hq
  · interval_cases n
    norm_num

theorem default_sum_le (n : ℤ) (hn : 3 ≤ n) :
    (default_allocations.map (fun a => layer_contracts n a.pct)).sum ≤ n := by
  have hn0 : (0 : ℤ) ≤ n := by omega
  simp only [default_allocations, List.map_cons, List.map_nil, List.sum_cons,
    List.sum_nil, add_zero]
  rw [layer_contracts_eq n 0.30 hn0 (by norm_num),
    layer_contracts_eq n 0.40 hn0 (by norm_num)]
  by_cases h4 : 4 ≤ n
  · have hc : (4 : ℚ) ≤ (n : ℚ) := by exact_mod_cast h4
    have h1 : (1 : ℤ) ≤ ⌊(n : ℚ) * 0.30⌋ := Int.le_floor.mpr (by push_cast; linarith)
    have h2 : (1 : ℤ) ≤ ⌊(n : ℚ) * 0.40⌋ := Int.le_floor.mpr (by push_cast; linarith)
    rw [max_eq_right h1, max_eq_right h2]
    have f1 := Int.floor_le ((n : ℚ) * 0.30)
    have f2 := Int.floor_le ((n : ℚ) * 0.40)
    have hq : ((⌊(n : ℚ) * 0.30⌋ + (⌊(n : ℚ) * 0.40⌋ + ⌊(n : ℚ) * 0.30⌋) : ℤ) : ℚ) ≤
        (n : ℚ) := by
      push_cast
      linarith
    exact_mod_cast hq
  · interval_cases n
    norm_num

theorem build_layer_some {filtered_options : List OptionRec} {sp : ℚ}
    {c : ℤ} {a : Allocation} {l : Layer}
    (h : build_layer filtered_options sp c a = some l) :
    l.contracts = layer_contracts c a.pct := by
  simp only [build_layer] at h
  split at h
  · cases h
  · injection h with h
    rw [← h]

theorem sum_filterMap_contracts_le (A : List Allocation)
    (f : Allocation → Option Layer) (g : Allocation → ℤ)
    (hf : ∀ a l, f a = some l → l.contracts = g a) (hg : ∀ a, 0 ≤ g a) :
    ((A.filterMap f).map Layer.contracts).sum ≤ (A.map g).sum := by
  induction A with
  | nil => simp
  | cons a rest ih =>
    rw [List.filterMap_cons]
    cases hfa : f a with
    | none =>
      simp only [List.map_cons, List.sum_cons]
      have := hg a
      linarith [ih]
    | some l =>
      simp only [List.map_cons, List.sum_cons]
      rw [hf a l hfa]
      linarith [ih]

theorem create_layered_post (filtered_options : List OptionRec) (sp : ℚ)
    (c : ℤ) (A : List Allocation) (s : LayeredStrategy)
    (hbound : (A.map (fun a => layer_contracts c a.pct)).sum ≤ c)
    (h : (if A.filterMap (build_layer filtered_options sp c) = [] then none
          else some
            { layers := A.filterMap (build_layer filtered_options sp c)
              total_contracts :=
                ((A.filterMap (build_layer filtered_options sp c)).map
                  Layer.contracts).sum
              total_premium :=
                ((A.filterMap (build_layer filtered_options sp c)).map
                  Layer.premium).sum }) = some s) :
    (∀ l ∈ s.layers, 1 ≤ l.contracts) ∧ s.total_contracts ≤ c := by
  split at h
  · cases h
  · injection h with h
    subst h
    constructor
    · intro l hl
      obtain ⟨a, _, hfa⟩ := List.mem_filterMap.mp hl
      rw [build_layer_some hfa]
      exact one_le_layer_contracts c a.pct
    · exact le_trans
        (sum_filterMap_contracts_le A _ _ (fun a l hh => build_layer_some hh)
          (fun a => le_trans zero_le_one (one_le_layer_contracts c a.pct)))
        hbound

/-- C10: for every contract count `n ≥ 3` and each of the three fixed
allocation tables (40/40/20, 33/34/33, 30/40/30), the per-tier counts
`max(1, floor(n * pct))` are each at least 1 and sum to at most `n`; and
consequently any layered strategy `_create_layered_strategy` returns has
every layer at least one contract and a total of at most
`shares // 100` contracts, even when the minimum-1 bump applies. -/
theorem layered_allocation_bounds (n : ℤ) (hn : 3 ≤ n) :
    ((∀ a ∈ oversold_allocations, 1 ≤ layer_contracts n a.pct) ∧
      (oversold_allocations.map (fun a => layer_contracts n a.pct)).sum ≤ n) ∧
    ((∀ a ∈ moderate_allocations, 1 ≤ layer_contracts n a.pct) ∧
      (moderate_allocations.map (fun a => layer_contracts n a.pct)).sum ≤ n) ∧
    ((∀ a ∈ default_allocations, 1 ≤ layer_contracts n a.pct) ∧
      (default_allocations.map (fun a => layer_contracts n a.pct)).sum ≤ n) ∧
    (∀ (filtered_options : List OptionRec) (sp : ℚ) (shares : ℤ)
      (tech : TechResult) (s : LayeredStrategy),
      create_layered_strategy filtered_options sp shares tech = some s →
      (∀ l ∈ s.layers, 1 ≤ l.contracts) ∧
        s.total_contracts ≤ Int.fdiv shares 100) := by
  refine ⟨⟨fun a _ => one_le_layer_contracts n a.pct, oversold_sum_le n hn⟩,
    ⟨fun a _ => one_le_layer_contracts n a.pct, moderate_sum_le n hn⟩,
    ⟨fun a _ => one_le_layer_contracts n a.pct, default_sum_le n hn⟩, ?_⟩
  intro filtered_options sp shares tech s h
  simp only [create_layered_strategy] at h
  by_cases hc : Int.fdiv shares 100 < 3
  · rw [if_pos hc] at h
    cases h
  · rw [if_neg hc] at h
    have hc3 : 3 ≤ Int.fdiv shares 100 := by omega
    by_cases hs1 : tech.sentiment = "oversold_bounce_risk" ∨
        tech.sentiment = "oversold_with_bullish"
    · rw [if_pos hs1] at h
      exact create_layered_post _ _ _ _ _ (oversold_sum_le _ hc3) h
    · rw [if_neg hs1] at h
      by_cases hs2 : tech.sentiment = "moderate" ∨ tech.bounce_potential ≠ none
      · rw [if_pos hs2] at h
        exact create_layered_post _ _ _ _ _ (moderate_sum_le _ hc3) h
      · rw [if_neg hs2] at h
        exact create_layered_post _ _ _ _ _ (default_sum_le _ hc3) h

/-- C10 witness: the theorem applied at `n = 10` contracts; the oversold
table allocates at least one contract per tier and at most 10 in total. -/
theorem layered_allocation_bounds_witness :
    (3 : ℤ) ≤ 10 ∧
    ((∀ a ∈ oversold_allocations, 1 ≤ layer_contracts 10 a.pct) ∧
      (oversold_allocations.map (fun a => layer_contracts 10 a.pct)).sum ≤ 10) :=
  ⟨by decide, (layered_allocation_bounds 10 (by decide)).1⟩

/-! ## C9: orchestrator error codes -/

theorem error_result_error (t d : String) : (error_result t d).error = some t := rfl

theorem select_phase_error_code (filtered_options : List OptionRec) (sp : ℚ)
    (shares : ℤ) (tech : TechResult) (r : RunResult)
    (h : select_phase filtered_options sp shares tech = .error r) :
    r.error = some "calculation_error" := by
  by_cases he : pyTruthy tech.error
  · simp only [select_phase, if_pos he] at h
    split at h
    · injection h with h
      rw [← h]
      rfl
    · split at h
      · injection h with h
        rw [← h]
        rfl
      · cases h
  · simp only [select_phase, if_neg he] at h
    split at h
    · injection h with h
      rw [← h]
      rfl
    · cases h

theorem run_selection_stage_codes (c : Collaborators) (clean_ticker : String)
    (shares : ℤ) (stock_price : ℚ) (filtered_options : List OptionRec) :
    (run_selection_stage c clean_ticker shares stock_price
      filtered_options).error ∈
      ([none, some "invalid_shares", some "invalid_ticker", some "no_options",
        some "no_liquid_options", some "api_error",
        some "calculation_error"] : List (Option String)) := by
  simp only [run_selection_stage]
  repeat' split
  all_goals first
    | (rename_i r heq
       rw [select_phase_error_code _ _ _ _ _ heq]
       decide)
    | simp [error_result_error]

theorem run_options_stage_codes (c : Collaborators) (clean_ticker : String)
    (shares : ℤ) (otm_only : Bool) (stock_price : ℚ) :
    (run_options_stage c clean_ticker shares otm_only stock_price).error ∈
      ([none, some "invalid_shares", some "invalid_ticker", some "no_options",
        some "no_liquid_options", some "api_error",
        some "calculation_error"] : List (Option String)) := by
  simp only [run_options_stage]
  repeat' split
  all_goals first
    | apply run_selection_stage_codes
    | simp [error_result_error]

/-- C9: shares that are not a positive multiple of 100 are rejected with
`invalid_shares` before any collaborator is consulted (the result is
identical for every collaborator behavior); and for every input the
returned error code is one of the six fixed codes or `none`. -/
theorem run_strategy_error_codes (c c' : Collaborators) (ticker : String)
    (shares : ℤ) (otm_only : Bool) :
    ((shares ≤ 0 ∨ Int.emod shares 100 ≠ 0) →
      run_covered_call_strategy c ticker shares otm_only =
        run_covered_call_strategy c' ticker shares otm_only ∧
      (run_covered_call_strategy c ticker shares otm_only).error =
        some "invalid_shares") ∧
    (run_covered_call_strategy c ticker shares otm_only).error ∈
      ([none, some "invalid_shares", some "invalid_ticker", some "no_options",
        some "no_liquid_options", some "api_error",
        some "calculation_error"] : List (Option String)) := by
  constructor
  · intro h
    constructor
    · simp only [run_covered_call_strategy, if_pos h]
    · simp only [run_covered_call_strategy, if_pos h, error_result_error]
  · simp only [run_covered_call_strategy]
    repeat' split
    all_goals first
      | apply run_options_stage_codes
      | simp [error_result_error]

/-- C9 witness: the theorem applied at `shares = 150` (not a multiple of
100) with two behaviorally different collaborator bundles; the rejection
is identical and carries `invalid_shares`. -/
theorem run_strategy_error_codes_witness :
    ((150 : ℤ) ≤ 0 ∨ Int.emod 150 100 ≠ 0) ∧
    (run_covered_call_strategy demo_collaborators "AAPL" 150 true =
        run_covered_call_strategy offline_collaborators "AAPL" 150 true ∧
      (run_covered_call_strategy demo_collaborators "AAPL" 150 true).error =
        some "invalid_shares") :=
  ⟨by decide,
    (run_strategy_error_codes demo_collaborators offline_collaborators
      "AAPL" 150 true).1 (by decide)⟩

end CoveredCall
